import Mathlib

/-!
Verification of the cdnx pipeline (src/src/main.rs) against its
natural-language specification.

The Rust source is shallowly embedded below. IPv4 addresses are their
32-bit unsigned values, machine integers are `Nat` with explicit
`% 2 ^ 32` where wrap-around matters, fallible parsing returns `Option`,
and the effect of `exit(1)` is an explicit exit-code component of the
result. Each definition cites the Rust function it embeds.
-/

/- ## CidrMatcher: parsing and membership (main.rs 219-258) -/

/-- Splitting a character list at every occurrence of a separator
character. Embeds Rust `str::split` with a `char` pattern, which yields
one (possibly empty) piece more than the number of separators; in
particular the empty string splits into one empty piece. -/
def split_char (sep : Char) : List Char → List (List Char)
  | [] => [[]]
  | c :: rest =>
    let r := split_char sep rest
    if c = sep then [] :: r
    else (c :: r.headI) :: r.tail

/-- Embeds the per-group scanning of Rust `Ipv4Addr::from_str`: a group is
nonempty, all decimal digits, at most 255, and has no leading zero (the
literal "0" alone is allowed). -/
def parse_octet (cs : List Char) : Option Nat :=
  if cs.length = 0 then none
  else if !(cs.all Char.isDigit) then none
  else if cs.length > 1 && cs.headI = '0' then none
  else
    let v := cs.foldl (fun a ch => a * 10 + (ch.toNat - 48)) 0
    if v ≤ 255 then some v else none

/-- Embeds `Ipv4Addr::from_str` composed with `ipv4_to_u32` (main.rs
249-251): exactly four octet groups separated by dots, combined big-endian
into the 32-bit value `u32::from(ip)`. -/
def parse_ipv4_chars (cs : List Char) : Option Nat :=
  match split_char '.' cs with
  | [a, b, c, d] =>
    match parse_octet a, parse_octet b, parse_octet c, parse_octet d with
    | some av, some bv, some cv, some dv =>
      some (av * 2 ^ 24 + bv * 2 ^ 16 + cv * 2 ^ 8 + dv)
    | _, _, _, _ => none
  | _ => none

/-- The candidate strings of the source are `&str`; parsing goes through
their character sequence. -/
def parse_ipv4 (s : String) : Option Nat :=
  parse_ipv4_chars s.toList

/-- Embeds Rust `str::parse::<u8>`: an optional leading plus sign, then
one or more decimal digits, value at most 255. -/
def parse_u8 (cs : List Char) : Option Nat :=
  let t := match cs with | '+' :: rest => rest | _ => cs
  if t.length = 0 then none
  else if !(t.all Char.isDigit) then none
  else
    let v := t.foldl (fun a ch => a * 10 + (ch.toNat - 48)) 0
    if v ≤ 255 then some v else none

/-- Embeds `parse_cidr` (main.rs 233-247): split on the slash into exactly
two parts, parse the network address and the prefix length, and reject a
prefix length above 32. `none` is the `Err` case. -/
def parse_cidr (cidr : String) : Option (Nat × Nat) :=
  match split_char '/' cidr.toList with
  | [ipPart, prePart] =>
    match parse_ipv4_chars ipPart, parse_u8 prePart with
    | some ip, some prefix_len =>
      if prefix_len > 32 then none else some (ip, prefix_len)
    | _, _ => none
  | _ => none

/-- Embeds the netmask computation of `is_ip_in_cidr` (main.rs 256):
`!0u32 << (32 - prefix_len)`. In release-mode Rust the shift amount of a
`u32` shift is masked modulo 32, hence the `% 32`; for `prefix_len = 0`
the shift amount 32 becomes 0 and the mask is all ones (a debug build
panics on the same input). -/
def netmask (prefix_len : Nat) : Nat :=
  (0xFFFFFFFF <<< ((32 - prefix_len) % 32)) % 2 ^ 32

/-- Embeds `is_ip_in_cidr` (main.rs 253-258):
`(ip & mask) == (network_ip & mask)`. -/
def is_ip_in_cidr (ip network_ip : Nat) (prefix_len : Nat) : Bool :=
  ip &&& netmask prefix_len == network_ip &&& netmask prefix_len

/-- Body of the `is_cdn` loop (main.rs 220-228) for one cached line: a line
whose `parse_cidr` fails contributes nothing, as does a candidate that is
not an IPv4 literal; otherwise the result is the range test. -/
def cidr_line_matches (ip cidr_str : String) : Bool :=
  match parse_cidr cidr_str with
  | some (network_ip, prefix_len) =>
    match parse_ipv4 ip with
    | some ipv => is_ip_in_cidr ipv network_ip prefix_len
    | none => false
  | none => false

/-- Embeds `is_cdn` (main.rs 219-231): the Rust for-loop with early
`return true` on the first matching line is `List.any`. -/
def is_cdn (cidrs : List String) (ip : String) : Bool :=
  cidrs.any (cidr_line_matches ip)

/- ## OutputPolicy (main.rs 278-285, 321-338) -/

/-- Embeds the ports setup in `main` (main.rs 278-284): with no ports
argument the list stays empty; with an argument `p` it becomes
`p.split(',')`, which for the empty string yields one empty entry, exactly
as `String.splitOn` does. -/
def parse_ports (args_ports : Option String) : List String :=
  match args_ports with
  | some p => (split_char ',' p.toList).map (fun cs => String.mk cs)
  | none => []

/-- Embeds `allow_print_ports = ports.len() != 0` (main.rs 285). -/
def allow_print_ports (ports : List String) : Bool :=
  ports.length != 0

/-- Embeds the output decision of the worker body (main.rs 323-337): three
sequential `if` blocks with early returns, transcribed as a chain. The
returned list is the sequence of lines printed for this unit. -/
def output_lines (domain : String) (ports : List String)
    (append is_this_cdn : Bool) : List String :=
  if !allow_print_ports ports && ((is_this_cdn && append) || !is_this_cdn) then
    [domain]
  else if is_this_cdn && append then
    [domain ++ ":80", domain ++ ":443"]
  else if !is_this_cdn then
    ports.map (fun port => domain ++ ":" ++ port)
  else
    []

/-- Transcription of the six-row decision table of spec section 4.5, written
from the spec's words to compare against `output_lines`. -/
def spec_output_table (domain : String) (ports : List String)
    (append is_this_cdn : Bool) : List String :=
  if ports.isEmpty then
    if !is_this_cdn then [domain]
    else if append then [domain] else []
  else
    if !is_this_cdn then ports.map (fun port => domain ++ ":" ++ port)
    else if append then [domain ++ ":80", domain ++ ":443"] else []

/- ## ProviderFetcher sink (main.rs 144-157) -/

/-- Embeds the receive loop of `fetch_new_data` (main.rs 145-150): state is
the file contents written so far and the `is_err` flag, initially `true`;
each received CIDR appends a line and clears the flag. -/
def fetch_recv_loop : List String → List String → Bool → List String × Bool
  | [], file, is_err => (file, is_err)
  | i :: rest, file, _ => fetch_recv_loop rest (file ++ [i ++ "\n"]) false

/-- Embeds `fetch_new_data`'s observable effect (main.rs 144-157) given the
prior cache contents and the sequence of CIDR strings received from the
provider tasks: `tokio::fs::File::create(path)` truncates the file before
the loop, so the prior contents are discarded unconditionally; afterwards
`exit(1)` fires iff `is_err` survived the loop. The second component is
the exit code, `none` meaning the function returns normally. -/
def fetch_new_data (_prior_cache received : List String) :
    List String × Option Nat :=
  let start : List String := []
  let looped := fetch_recv_loop received start true
  (looped.1, if looped.2 then some 1 else none)

/- ## CidrCache staleness (main.rs 183-201) -/

/-- A `std::time::Duration`: whole seconds plus a nanosecond remainder
below one billion. -/
structure Duration where
  secs : Nat
  nanos : Nat

/-- Embeds the staleness test of `check_updates` (main.rs 197):
`gap.as_secs() > interval`, where `Duration::as_secs` discards the
nanosecond part. -/
def should_refresh (gap : Duration) (interval : Nat) : Bool :=
  gap.secs > interval

/-- Transcription of the spec's comparison, written from the spec's words:
the elapsed time G strictly exceeds the interval I, compared at full
(nanosecond) precision. -/
def spec_age_exceeds (gap : Duration) (interval : Nat) : Bool :=
  interval * 1000000000 < gap.secs * 1000000000 + gap.nanos

/- ## ResolutionPipeline: per-unit resolution (main.rs 307-338) -/

/-- Outcome of `resolver.ipv4_lookup` for one domain. trust-dns-resolver
reports an empty record set as `Err(NoRecordsFound)`, so a transport
failure and an empty result are both the `failure` arm; a `success` carries
the returned addresses rendered as strings. -/
inductive LookupOutcome where
  | failure : LookupOutcome
  | success : List String → LookupOutcome

/-- Embeds the `this_ip` computation of the worker (main.rs 308-317): an
input that parses as an IP literal is used verbatim; otherwise a failed
lookup yields the empty string and a successful lookup takes its first
address with `.next().unwrap()`. The outer `none` models that unwrap
panicking on an empty iterator. -/
def resolve_this_ip (domain : String) (parses_as_ip : Bool)
    (lookup : LookupOutcome) : Option String :=
  if parses_as_ip then some domain
  else
    match lookup with
    | .failure => some ""
    | .success addrs => addrs.head?

/-- Embeds one resolution unit end to end (main.rs 307-338): compute
`this_ip`, drop the unit when it is empty, otherwise classify it with
`is_cdn` and apply the output decision. The outer `none` is a worker
panic; `some lines` is normal completion printing `lines`. -/
def unit_output (domain : String) (parses_as_ip : Bool)
    (lookup : LookupOutcome) (cidrs ports : List String)
    (append : Bool) : Option (List String) :=
  match resolve_this_ip domain parses_as_ip lookup with
  | none => none
  | some this_ip =>
    if this_ip.isEmpty then some []
    else some (output_lines domain ports append (is_cdn cidrs this_ip))

/- ## ResolutionPipeline: admission window (main.rs 297-343) -/

/-- Embeds the admission loop of `main` (main.rs 303-305):
`while join_set.len() >= max_concurrent { join_next().unwrap() }` — each
iteration waits for one in-flight unit to finish, shrinking the set by
one. At `len = 0` the loop body is reachable only for
`max_concurrent = 0`, where the source's `join_next` on an empty set
returns `None` and the unwrap panics; the claims restrict to a bound of
at least 1, where the branch below is never taken. -/
def drain_loop (max_concurrent : Nat) : Nat → Nat
  | 0 => 0
  | len + 1 =>
    if max_concurrent ≤ len + 1 then drain_loop max_concurrent len
    else len + 1

/-- Events observable on the join set: `spawn` is one pass through the
admission loop followed by `join_set.spawn` (main.rs 303-307); `complete`
is one in-flight unit finishing and being reaped by `join_next`
(main.rs 304 or 341-343). -/
inductive PoolEvent where
  | spawn : PoolEvent
  | complete : PoolEvent

/-- Effect of one event on the number of in-flight units. -/
def pool_step (max_concurrent len : Nat) : PoolEvent → Nat
  | .spawn => drain_loop max_concurrent len + 1
  | .complete => len - 1

/-- Number of in-flight units after a sequence of events, starting from
the empty join set. -/
def pool_run (max_concurrent : Nat) (events : List PoolEvent) : Nat :=
  events.foldl (pool_step max_concurrent) 0

/- ## Helper lemmas -/

/-- The `is_err` flag, once cleared by a received CIDR, stays cleared for
the rest of the receive loop. -/
theorem fetch_recv_loop_snd_false (l file : List String) :
    (fetch_recv_loop l file false).2 = false := by
  induction l generalizing file with
  | nil => rfl
  | cons a r ih => exact ih (file ++ [a ++ "\n"])

/-- List.any is invariant under permutation of the list. -/
theorem perm_any_eq {α : Type} (f : α → Bool) (l1 l2 : List α)
    (h : l1.Perm l2) : l1.any f = l2.any f := by
  induction h with
  | nil => rfl
  | cons x _ ih => simp only [List.any_cons, ih]
  | swap x y l => simp only [List.any_cons, ← Bool.or_assoc, Bool.or_comm]
  | trans _ _ ih1 ih2 => rw [ih1, ih2]

/-- The admission loop leaves strictly fewer in-flight units than the
bound, provided the bound is positive. -/
theorem drain_loop_le (max_concurrent : Nat) (h : 1 ≤ max_concurrent)
    (len : Nat) : drain_loop max_concurrent len ≤ max_concurrent - 1 := by
  induction len with
  | zero => exact Nat.zero_le _
  | succ n ih =>
    unfold drain_loop
    split
    · exact ih
    · omega

/-- One pool event never pushes the in-flight count above the bound. -/
theorem pool_step_le (max_concurrent c : Nat) (h : 1 ≤ max_concurrent)
    (hc : c ≤ max_concurrent) (e : PoolEvent) :
    pool_step max_concurrent c e ≤ max_concurrent := by
  cases e with
  | spawn =>
    have := drain_loop_le max_concurrent h c
    simp only [pool_step]
    omega
  | complete =>
    simp only [pool_step]
    omega

/- ## Claim theorems -/

/-- C1: evaluating the code at the failing input. The spec states that a
prefix of 0 matches every address; in the code `netmask 0` shifts an
all-ones word by 32, which release-mode Rust masks to a shift by 0, so the
mask is all ones and the entry `0.0.0.0/0` fails to match `1.2.3.4`
(a debug build panics on the shift instead). -/
theorem c1_eval_prefix_zero_mismatch :
    is_cdn ["0.0.0.0/0"] "1.2.3.4" = false ∧
    is_ip_in_cidr 16909060 0 0 = false ∧
    netmask 0 = 4294967295 := by
  refine ⟨rfl, rfl, rfl⟩

/-- C2: the worker's output decision (three sequential if-blocks with early
returns) coincides with the six-row decision table of spec section 4.5 on
every combination of ports list, append flag and CDN classification. -/
theorem c2_output_policy_exhaustive (domain : String) (ports : List String)
    (append is_this_cdn : Bool) :
    output_lines domain ports append is_this_cdn =
      spec_output_table domain ports append is_this_cdn := by
  cases ports <;> cases append <;> cases is_this_cdn <;>
    simp [output_lines, spec_output_table, allow_print_ports]

/-- C3: the fetch exits with code 1 exactly when the union of CIDRs
received from all providers is empty; with at least one CIDR it completes
without exiting. -/
theorem c3_exit_one_iff_zero_cidrs (prior_cache received : List String) :
    (fetch_new_data prior_cache received).2 = some 1 ↔ received = [] := by
  cases received with
  | nil => simp [fetch_new_data, fetch_recv_loop]
  | cons a r =>
    simp only [fetch_new_data, fetch_recv_loop, fetch_recv_loop_snd_false]
    simp

/-- C4 counterexample: a populated cache does not survive a fetch whose
union is empty — `File::create` has already truncated the file, so the
contents after the failed fetch are empty rather than the prior line. -/
theorem c4_counterexample_cache_lost :
    (fetch_new_data ["104.16.0.0/13\n"] []).1 = [] ∧
    ["104.16.0.0/13\n"] ≠ ([] : List String) := by
  refine ⟨rfl, by decide⟩

/-- C4 amended: when the fetched union is empty the process exits with
code 1, but the cache file has been truncated at the start of the fetch,
so whatever the prior contents were, the file is empty afterwards. -/
theorem c4_amended_truncate_then_exit (prior_cache : List String) :
    (fetch_new_data prior_cache []).1 = [] ∧
    (fetch_new_data prior_cache []).2 = some 1 := by
  exact ⟨rfl, rfl⟩

/-- C5: a line that fails to parse is skipped and never aborts the check —
the membership result over any line list equals the result over only the
lines that parse. -/
theorem c5_malformed_lines_skipped (cidrs : List String) (ip : String) :
    is_cdn cidrs ip =
      is_cdn (cidrs.filter (fun l => (parse_cidr l).isSome)) ip := by
  unfold is_cdn
  induction cidrs with
  | nil => rfl
  | cons a r ih =>
    rw [List.filter_cons]
    cases hp : parse_cidr a with
    | some v =>
      simp only [List.any_cons, ih]
      simp
    | none =>
      have hs : ((parse_cidr a).isSome : Bool) = false := by rw [hp]; rfl
      have hf : cidr_line_matches ip a = false := by
        unfold cidr_line_matches
        rw [hp]
      simp only [hs, List.any_cons, hf, Bool.false_or, ih]
      simp

/-- C6 counterexample: a cache age of 10 seconds and one nanosecond
strictly exceeds an interval of 10 seconds, yet the code's truncating
comparison `gap.as_secs() > interval` does not trigger a refresh. -/
theorem c6_counterexample_subsecond_age :
    should_refresh ⟨10, 1⟩ 10 = false ∧
    spec_age_exceeds ⟨10, 1⟩ 10 = true := by
  refine ⟨rfl, rfl⟩

/-- C6 amended: with configuration and cache file present, a refresh is
triggered iff the whole-second part of the cache age exceeds the interval,
i.e. iff the age reaches a full interval-plus-one seconds; ages inside the
open interval (I, I+1) seconds do not refresh. -/
theorem c6_amended_refresh_iff_next_second (gap : Duration) (interval : Nat)
    (h : gap.nanos < 1000000000) :
    should_refresh gap interval = true ↔
      (interval + 1) * 1000000000 ≤ gap.secs * 1000000000 + gap.nanos := by
  have hb : should_refresh gap interval = true ↔ interval < gap.secs := by
    simp [should_refresh]
  rw [hb]
  omega

/-- C6 witness: the amended staleness statement at cache age 11 s,
interval 10 s. -/
theorem c6_witness :
    (Duration.mk 11 0).nanos < 1000000000 ∧
    (should_refresh ⟨11, 0⟩ 10 = true ↔
      (10 + 1) * 1000000000 ≤ 11 * 1000000000 + 0) :=
  ⟨by decide, c6_amended_refresh_iff_next_second ⟨11, 0⟩ 10 (by decide)⟩

/-- C7: a resolution unit whose input is not an IP literal and whose DNS
lookup fails (trust-dns reports an empty record set as a lookup failure)
is discarded: it completes normally and prints nothing. -/
theorem c7_failed_lookup_unit_dropped (domain : String)
    (cidrs ports : List String) (append : Bool) :
    unit_output domain false .failure cidrs ports append = some [] := by
  rfl

/-- C8: starting from an empty join set, after any sequence of admissions
and completions the number of in-flight units never exceeds the bound,
for every bound of at least 1; since this holds for every event sequence,
it holds at every point of every trace. -/
theorem c8_concurrency_bound (max_concurrent : Nat)
    (events : List PoolEvent) (h : 1 ≤ max_concurrent) :
    pool_run max_concurrent events ≤ max_concurrent := by
  unfold pool_run
  have key : ∀ (es : List PoolEvent) (c : Nat), c ≤ max_concurrent →
      es.foldl (pool_step max_concurrent) c ≤ max_concurrent := by
    intro es
    induction es with
    | nil => intro c hc; simpa using hc
    | cons e r ih =>
      intro c hc
      exact ih _ (pool_step_le max_concurrent c h hc e)
  exact key events 0 (Nat.zero_le _)

/-- C8 witness: the bound at 2 with three admissions and one completion. -/
theorem c8_witness :
    1 ≤ 2 ∧ pool_run 2 [.spawn, .spawn, .spawn, .complete] ≤ 2 :=
  ⟨by decide, c8_concurrency_bound 2 [.spawn, .spawn, .spawn, .complete]
    (by decide)⟩

/-- C9: a present-but-empty ports argument splits into one empty port, so
explicit-ports mode is active and every non-CDN resolved domain emits
exactly the single line `domain:`. -/
theorem c9_empty_ports_argument (domain : String) (append : Bool) :
    parse_ports (some "") = [""] ∧
    allow_print_ports (parse_ports (some "")) = true ∧
    output_lines domain (parse_ports (some "")) append false =
      [domain ++ ":"] := by
  refine ⟨rfl, rfl, ?_⟩
  show output_lines domain [""] append false = [domain ++ ":"]
  simp [output_lines, allow_print_ports]

/-- C10: the membership result of `is_cdn` is invariant under permutation
of the CIDR lines and under appending the list to itself. -/
theorem c10_perm_dup_invariant (ip : String) (l1 l2 : List String)
    (h : l1.Perm l2) :
    is_cdn l1 ip = is_cdn l2 ip ∧ is_cdn (l1 ++ l1) ip = is_cdn l1 ip := by
  constructor
  · exact perm_any_eq (cidr_line_matches ip) l1 l2 h
  · unfold is_cdn
    rw [List.any_append, Bool.or_self]

/-- C10 witness: permuting two lines and duplicating the list leave the
membership result unchanged. -/
theorem c10_witness :
    (is_cdn ["104.16.0.0/13", "not-a-cidr"] "104.17.2.3" =
      is_cdn ["not-a-cidr", "104.16.0.0/13"] "104.17.2.3") ∧
    is_cdn (["104.16.0.0/13", "not-a-cidr"] ++
      ["104.16.0.0/13", "not-a-cidr"]) "104.17.2.3" =
      is_cdn ["104.16.0.0/13", "not-a-cidr"] "104.17.2.3" :=
  c10_perm_dup_invariant "104.17.2.3" _ _
    (List.Perm.swap "not-a-cidr" "104.16.0.0/13" [])
